import Mathlib

/-!
Verification development for two command-line utilities:
a comment reshaper (convert-comments) and an OpenAPI schema patcher
(preprocess-spec).  Decoded JSON values are modelled by the inductive
type `Json`; Python dictionaries are association lists with
first-occurrence lookup (decoded JSON dictionaries always have unique
keys, for which these semantics coincide with Python's); Python
operations that can raise (membership tests, subscripts, attribute
access) return `Except PyError`.
-/

set_option maxHeartbeats 1000000

/-- A decoded JSON value (the result of Python json.load / json.loads).
Numbers are modelled as integers; no claim involves non-integer numbers. -/
inductive Json where
  | null : Json
  | bool : Bool → Json
  | num : Int → Json
  | str : String → Json
  | arr : List Json → Json
  | obj : List (String × Json) → Json

/-- First-occurrence lookup in an association list (Python dict lookup;
decoded dictionaries have unique keys, so first occurrence is the key's
single occurrence). -/
def dictGet? (kvs : List (String × Json)) (k : String) : Option Json :=
  match kvs with
  | [] => none
  | (k', v) :: rest => if k' = k then some v else dictGet? rest k

/-- Python `k in d` for a dict: key membership. -/
def dictHas (kvs : List (String × Json)) (k : String) : Bool :=
  (dictGet? kvs k).isSome

/-- Python `d[k] = v`: replace the value at the first occurrence of the
key, keeping its position, or append the binding if the key is absent. -/
def dictSet (kvs : List (String × Json)) (k : String) (v : Json) :
    List (String × Json) :=
  match kvs with
  | [] => [(k, v)]
  | (k', v') :: rest =>
    if k' = k then (k', v) :: rest else (k', v') :: dictSet rest k v

/-- Python `del d[k]`: remove the key's binding (all occurrences; a
decoded dictionary has at most one). -/
def delKey : List (String × Json) → String → List (String × Json)
  | [], _ => []
  | (k', v) :: rest, k =>
    if k' = k then delKey rest k else (k', v) :: delKey rest k

/-- The opening brace character of a Python dict repr. -/
def lbraceChar : Char := Char.ofNat 123

/-- The closing brace character of a Python dict repr. -/
def rbraceChar : Char := Char.ofNat 125

/-- The single-quote character used by Python str repr. -/
def squoteChar : Char := Char.ofNat 39

mutual

/-- Python str()/repr() of a decoded JSON value, as a character list:
None, True, False, integers, quoted strings, bracketed lists and braced
dicts with comma-space separators. -/
def pyRepr : Json → List Char
  | Json.null => ['N', 'o', 'n', 'e']
  | Json.bool true => ['T', 'r', 'u', 'e']
  | Json.bool false => ['F', 'a', 'l', 's', 'e']
  | Json.num n => (toString n).toList
  | Json.str s => squoteChar :: s.toList ++ [squoteChar]
  | Json.arr xs => '[' :: pyReprElems xs ++ [']']
  | Json.obj kvs => lbraceChar :: pyReprItems kvs ++ [rbraceChar]

/-- Comma-space separated reprs of the elements of a Python list. -/
def pyReprElems : List Json → List Char
  | [] => []
  | [j] => pyRepr j
  | j :: js => pyRepr j ++ ',' :: ' ' :: pyReprElems js

/-- Comma-space separated key: value reprs of the items of a Python dict. -/
def pyReprItems : List (String × Json) → List Char
  | [] => []
  | [(k, v)] => squoteChar :: k.toList ++ squoteChar :: ':' :: ' ' :: pyRepr v
  | (k, v) :: kvs =>
    squoteChar :: k.toList ++ squoteChar :: ':' :: ' ' :: pyRepr v ++
      ',' :: ' ' :: pyReprItems kvs

end

/-- Errors raised by the Python operations the patcher uses. -/
inductive PyError where
  | typeError : PyError
  | keyError : PyError
  | attributeError : PyError
deriving DecidableEq

/-- Result of a Python computation that may raise. -/
abbrev PyResult (α : Type) := Except PyError α

/-- Whether the needle occurs as a contiguous sublist of the haystack
(Python substring membership; the empty needle always occurs). -/
def takeEq : List Char → List Char → Bool
  | [], _ => true
  | _ :: _, [] => false
  | a :: as, b :: bs => a == b && takeEq as bs

/-- Sublist occurrence test used for Python `needle in haystack` on strings. -/
def subList (needle : List Char) : List Char → Bool
  | [] => needle.isEmpty
  | c :: rest => takeEq needle (c :: rest) || subList needle rest

/-- Python `k in j` for a decoded value: key membership for dicts,
element equality for lists, substring test for strings, TypeError for
None, booleans and numbers. -/
def pyIn (k : String) : Json → PyResult Bool
  | Json.obj kvs => Except.ok (dictHas kvs k)
  | Json.arr xs =>
    Except.ok (xs.any fun j =>
      match j with
      | Json.str s => s == k
      | _ => false)
  | Json.str s => Except.ok (subList k.toList s.toList)
  | _ => Except.error PyError.typeError

/-- Python `j[k]` with a string key: dict lookup (KeyError when absent),
TypeError on every non-dict value. -/
def pyGetItem (j : Json) (k : String) : PyResult Json :=
  match j with
  | Json.obj kvs =>
    match dictGet? kvs k with
    | some v => Except.ok v
    | none => Except.error PyError.keyError
  | _ => Except.error PyError.typeError

/-- Python `j[k] = v` with a string key: dict update, TypeError otherwise. -/
def pySetItem (j : Json) (k : String) (v : Json) : PyResult Json :=
  match j with
  | Json.obj kvs => Except.ok (Json.obj (dictSet kvs k v))
  | _ => Except.error PyError.typeError

/-- Python `j.items()`: the item list of a dict, AttributeError otherwise. -/
def pyItems : Json → PyResult (List (String × Json))
  | Json.obj kvs => Except.ok kvs
  | _ => Except.error PyError.attributeError

/-- Lookup of a key below a value when that value is a dict, `none`
otherwise (a pure observer used to state properties). -/
def jget (j : Json) (k : String) : Option Json :=
  match j with
  | Json.obj kvs => dictGet? kvs k
  | _ => none

/-- Whether a decoded value is a dict (Python isinstance(_, dict)). -/
def Json.isObj : Json → Bool
  | Json.obj _ => true
  | _ => false

/-! ## Comment reshaper (convert-comments, function convert_comment) -/

/-- A decoded comment record: a Python dict from strings to values. -/
abbrev CommentDict := List (String × Json)

/-- Python `d.get(k)`: the value at the key, or None when absent.  A key
bound to JSON null and an absent key both yield None, exactly as in
Python. -/
def pyDictGet (d : CommentDict) (k : String) : Json :=
  (dictGet? d k).getD Json.null

/-- Python `x is not None` on a decoded value. -/
def isNotNone : Json → Bool
  | Json.null => false
  | _ => true

/-- The reshape operation of convert-comments: extracts the four special
annotation keys whose value is not None, groups them under labelling and
entities, and wraps the remaining record under comment.  Each `.get`
check and `del` mirrors one statement of the source. -/
def convert_comment (old_comment : CommentDict) : CommentDict :=
  let assigned_labels := pyDictGet old_comment "assigned_labels"
  let dismissed_labels := pyDictGet old_comment "dismissed_labels"
  let assigned_entities := pyDictGet old_comment "assigned_entities"
  let dismissed_entities := pyDictGet old_comment "dismissed_entities"
  let labellings : CommentDict := []
  let labellings :=
    if isNotNone assigned_labels then
      labellings ++ [("assigned", assigned_labels)]
    else labellings
  let old_comment :=
    if isNotNone assigned_labels then delKey old_comment "assigned_labels"
    else old_comment
  let labellings :=
    if isNotNone dismissed_labels then
      labellings ++ [("dismissed", dismissed_labels)]
    else labellings
  let old_comment :=
    if isNotNone dismissed_labels then delKey old_comment "dismissed_labels"
    else old_comment
  let entities : CommentDict := []
  let entities :=
    if isNotNone assigned_entities then
      entities ++ [("assigned", assigned_entities)]
    else entities
  let old_comment :=
    if isNotNone assigned_entities then delKey old_comment "assigned_entities"
    else old_comment
  let entities :=
    if isNotNone dismissed_entities then
      entities ++ [("dismissed", dismissed_entities)]
    else entities
  let old_comment :=
    if isNotNone dismissed_entities then delKey old_comment "dismissed_entities"
    else old_comment
  let new_comment : CommentDict := [("comment", Json.obj old_comment)]
  let new_comment :=
    if labellings.length > 0 then new_comment ++ [("labelling", Json.obj labellings)]
    else new_comment
  let new_comment :=
    if entities.length > 0 then new_comment ++ [("entities", Json.obj entities)]
    else new_comment
  new_comment

/-! ## Schema patcher (preprocess-spec) -/

/-- Python `prop.get('type') == 'null'` on a dict's item list. -/
def typeIsNull (kvs : List (String × Json)) : Bool :=
  match dictGet? kvs "type" with
  | some (Json.str s) => s == "null"
  | _ => false

/-- Python `prop.get('enum') == [None]` on a dict's item list. -/
def enumIsNullList (kvs : List (String × Json)) : Bool :=
  match dictGet? kvs "enum" with
  | some (Json.arr [Json.null]) => true
  | _ => false

/-- Python `str(prop).lower() == 'none'`: the representation-based
heuristic branch of the null-typed detector. -/
def reprIsNone (j : Json) : Bool :=
  ((pyRepr j).map Char.toLower) == ['n', 'o', 'n', 'e']

/-- The null-typed detector of the two fix passes:
isinstance(prop, dict) and (type == 'null' or enum == [None] or
str(prop).lower() == 'none'). -/
def isNullTypedProp (j : Json) : Bool :=
  match j with
  | Json.obj kvs => typeIsNull kvs || enumIsNullList kvs || reprIsNone (Json.obj kvs)
  | _ => false

/-- The condition validate_schemas flags: isinstance(prop, dict) and
(type == 'null' or enum == [None]); it has no representation branch. -/
def validatePropFlag (j : Json) : Bool :=
  match j with
  | Json.obj kvs => typeIsNull kvs || enumIsNullList kvs
  | _ => false

/-- The replacement written over a null-typed property. -/
def fixedProp : Json :=
  Json.obj [("type", Json.str "string"), ("nullable", Json.bool true)]

/-- One named-schema block of fix_none_typed_ids, for the given schema
name: if the name is in schemas and its value has a properties entry
with an id entry whose value the detector matches, the id entry is
replaced by `fixedProp`; the functional write-back along the access path
reconstructs the in-place mutation of the source. -/
def fixIdInSchemas (schemas : Json) (name : String) : PyResult Json :=
  match pyIn name schemas with
  | Except.error e => Except.error e
  | Except.ok false => Except.ok schemas
  | Except.ok true =>
    match pyGetItem schemas name with
    | Except.error e => Except.error e
    | Except.ok sdef =>
      match pyIn "properties" sdef with
      | Except.error e => Except.error e
      | Except.ok false => Except.ok schemas
      | Except.ok true =>
        match pyGetItem sdef "properties" with
        | Except.error e => Except.error e
        | Except.ok props =>
          match pyIn "id" props with
          | Except.error e => Except.error e
          | Except.ok false => Except.ok schemas
          | Except.ok true =>
            match pyGetItem props "id" with
            | Except.error e => Except.error e
            | Except.ok idProp =>
              if isNullTypedProp idProp then
                match pySetItem props "id" fixedProp with
                | Except.error e => Except.error e
                | Except.ok props2 =>
                  match pySetItem sdef "properties" props2 with
                  | Except.error e => Except.error e
                  | Except.ok sdef2 => pySetItem schemas name sdef2
              else Except.ok schemas

/-- fix_none_typed_ids: early return when components or
components.schemas is missing, then the EntityDefNew block followed by
the FieldChoiceNewApi block, writing the updated schemas back along the
access path. -/
def fix_none_typed_ids (spec : Json) : PyResult Json :=
  match pyIn "components" spec with
  | Except.error e => Except.error e
  | Except.ok false => Except.ok spec
  | Except.ok true =>
    match pyGetItem spec "components" with
    | Except.error e => Except.error e
    | Except.ok comp =>
      match pyIn "schemas" comp with
      | Except.error e => Except.error e
      | Except.ok false => Except.ok spec
      | Except.ok true =>
        match pyGetItem comp "schemas" with
        | Except.error e => Except.error e
        | Except.ok schemas0 =>
          match fixIdInSchemas schemas0 "EntityDefNew" with
          | Except.error e => Except.error e
          | Except.ok schemas1 =>
            match fixIdInSchemas schemas1 "FieldChoiceNewApi" with
            | Except.error e => Except.error e
            | Except.ok schemas2 =>
              match pySetItem comp "schemas" schemas2 with
              | Except.error e => Except.error e
              | Except.ok comp2 => pySetItem spec "components" comp2

/-- The per-property action of the general sweep: a dict property the
detector matches is replaced by `fixedProp`, anything else is kept. -/
def fixPropAction (v : Json) : Json :=
  if isNullTypedProp v then fixedProp else v

/-- The inner loop of fix_invalid_schemas over one properties dict:
each value is replaced or kept in place. -/
def fixPropsPass (items : List (String × Json)) : List (String × Json) :=
  items.map (fun kv => (kv.1, fixPropAction kv.2))

/-- The per-schema step of fix_invalid_schemas: when the schema is a
dict with a properties entry, its properties items are swept
(AttributeError when the properties value is not a dict); otherwise the
schema is untouched. -/
def fixSchemaPass (schema : Json) : PyResult Json :=
  match schema with
  | Json.obj kvs =>
    if dictHas kvs "properties" then
      match pyGetItem (Json.obj kvs) "properties" with
      | Except.error e => Except.error e
      | Except.ok props =>
        match pyItems props with
        | Except.error e => Except.error e
        | Except.ok pitems =>
          Except.ok (Json.obj (dictSet kvs "properties" (Json.obj (fixPropsPass pitems))))
    else Except.ok (Json.obj kvs)
  | j => Except.ok j

/-- The outer loop of fix_invalid_schemas over schemas.items(). -/
def fixSchemasPass : List (String × Json) → PyResult (List (String × Json))
  | [] => Except.ok []
  | (n, sch) :: rest =>
    match fixSchemaPass sch with
    | Except.error e => Except.error e
    | Except.ok sch' =>
      match fixSchemasPass rest with
      | Except.error e => Except.error e
      | Except.ok rest' => Except.ok ((n, sch') :: rest')

/-- fix_invalid_schemas: early return when components or
components.schemas is missing, otherwise the general sweep over every
schema's properties. -/
def fix_invalid_schemas (spec : Json) : PyResult Json :=
  match pyIn "components" spec with
  | Except.error e => Except.error e
  | Except.ok false => Except.ok spec
  | Except.ok true =>
    match pyGetItem spec "components" with
    | Except.error e => Except.error e
    | Except.ok comp =>
      match pyIn "schemas" comp with
      | Except.error e => Except.error e
      | Except.ok false => Except.ok spec
      | Except.ok true =>
        match pyGetItem comp "schemas" with
        | Except.error e => Except.error e
        | Except.ok schemasJ =>
          match pyItems schemasJ with
          | Except.error e => Except.error e
          | Except.ok items =>
            match fixSchemasPass items with
            | Except.error e => Except.error e
            | Except.ok items' =>
              match pySetItem comp "schemas" (Json.obj items') with
              | Except.error e => Except.error e
              | Except.ok comp2 => pySetItem spec "components" comp2

/-- The inner loop of validate_schemas over one properties item list:
valid iff no item is flagged. -/
def validateProps (items : List (String × Json)) : Bool :=
  items.all (fun kv => !validatePropFlag kv.2)

/-- The per-schema step of validate_schemas. -/
def validateSchemaPass (schema : Json) : PyResult Bool :=
  match schema with
  | Json.obj kvs =>
    if dictHas kvs "properties" then
      match pyGetItem (Json.obj kvs) "properties" with
      | Except.error e => Except.error e
      | Except.ok props =>
        match pyItems props with
        | Except.error e => Except.error e
        | Except.ok pitems => Except.ok (validateProps pitems)
    else Except.ok true
  | _ => Except.ok true

/-- The outer loop of validate_schemas over schemas.items(). -/
def validateSchemasList : List (String × Json) → PyResult Bool
  | [] => Except.ok true
  | (_, sch) :: rest =>
    match validateSchemaPass sch with
    | Except.error e => Except.error e
    | Except.ok b =>
      match validateSchemasList rest with
      | Except.error e => Except.error e
      | Except.ok b' => Except.ok (b && b')

/-- validate_schemas: True when components or components.schemas is
missing, otherwise the sweep checking that no property is flagged. -/
def validate_schemas (spec : Json) : PyResult Bool :=
  match pyIn "components" spec with
  | Except.error e => Except.error e
  | Except.ok false => Except.ok true
  | Except.ok true =>
    match pyGetItem spec "components" with
    | Except.error e => Except.error e
    | Except.ok comp =>
      match pyIn "schemas" comp with
      | Except.error e => Except.error e
      | Except.ok false => Except.ok true
      | Except.ok true =>
        match pyGetItem comp "schemas" with
        | Except.error e => Except.error e
        | Except.ok schemasJ =>
          match pyItems schemasJ with
          | Except.error e => Except.error e
          | Except.ok items => validateSchemasList items

/-- The final branch of preprocess_spec after the second validation:
the corrected document is produced for writing only when validation
succeeded. -/
def patcherFinish (spec : Json) (valid : Bool) : Option Json :=
  if valid then some spec else none

/-- The whole preprocess_spec flow on a loaded document: validate the
input (result only logged), apply the two fix passes in order, validate
again, and produce the document to write, or nothing on the failure
branch. -/
def preprocess_spec (spec : Json) : PyResult (Option Json) :=
  match validate_schemas spec with
  | Except.error e => Except.error e
  | Except.ok _v1 =>
    match fix_none_typed_ids spec with
    | Except.error e => Except.error e
    | Except.ok spec1 =>
      match fix_invalid_schemas spec1 with
      | Except.error e => Except.error e
      | Except.ok spec2 =>
        match validate_schemas spec2 with
        | Except.error e => Except.error e
        | Except.ok v2 => Except.ok (patcherFinish spec2 v2)

/-- Observable outcome of one patcher process run: what was written,
whether the failure line was printed, and the process exit status. -/
structure PatcherRun where
  written : Option Json
  failureLine : Bool
  exitCode : Nat

/-- Outcome of the entry point given the preprocess_spec result: an
uncaught exception exits nonzero without writing; the failure branch
prints the failure line, writes nothing and still exits 0 (the script
never calls sys.exit there); success writes the document and exits 0. -/
def patcherOutcome : PyResult (Option Json) → PatcherRun
  | Except.error _ => { written := none, failureLine := false, exitCode := 1 }
  | Except.ok none => { written := none, failureLine := true, exitCode := 0 }
  | Except.ok (some out) => { written := some out, failureLine := false, exitCode := 0 }

/-- The patcher process on a successfully decoded document. -/
def runPatcher (spec : Json) : PatcherRun :=
  patcherOutcome (preprocess_spec spec)

/-! ## Observers used to state properties -/

/-- The components.schemas value of a document, when the path exists
through dicts. -/
def schemasPath (d : Json) : Option Json :=
  (jget d "components").bind (fun c => jget c "schemas")

/-- The property definition at components.schemas.s.properties.p, when
the whole path exists through dicts. -/
def schemaProp (d : Json) (s p : String) : Option Json :=
  ((schemasPath d).bind (fun sc => jget sc s)).bind
    (fun sch => (jget sch "properties").bind (fun pr => jget pr p))

/-- Containers traversed by fix_none_typed_ids are dicts where present:
under this condition the pass cannot raise, and absent parts are
skipped. -/
def namedSchemaWF (schKvs : List (String × Json)) (name : String) : Bool :=
  match dictGet? schKvs name with
  | none => true
  | some (Json.obj sdefKvs) =>
    match dictGet? sdefKvs "properties" with
    | none => true
    | some (Json.obj _) => true
    | some _ => false
  | some _ => false

/-- Well-formedness of the whole named-pass path: the document is a
dict; components, when present, is a dict; schemas, when present, is a
dict; and both named schemas satisfy namedSchemaWF. -/
def namedSkipWF (d : Json) : Bool :=
  match d with
  | Json.obj dKvs =>
    match dictGet? dKvs "components" with
    | none => true
    | some (Json.obj compKvs) =>
      match dictGet? compKvs "schemas" with
      | none => true
      | some (Json.obj schKvs) =>
        namedSchemaWF schKvs "EntityDefNew" && namedSchemaWF schKvs "FieldChoiceNewApi"
      | some _ => false
    | some _ => false
  | _ => false

/-! ## Basic lemmas about the dictionary operations -/

theorem dictGet?_dictSet_self (kvs : List (String × Json)) (k : String) (v : Json) :
    dictGet? (dictSet kvs k v) k = some v := by
  induction kvs with
  | nil => simp [dictSet, dictGet?]
  | cons kv rest ih =>
    obtain ⟨k', v'⟩ := kv
    by_cases h : k' = k
    · simp [dictSet, dictGet?, h]
    · simp [dictSet, dictGet?, h, ih]

theorem dictGet?_dictSet_ne (kvs : List (String × Json)) (k k' : String) (v : Json)
    (h : k' ≠ k) : dictGet? (dictSet kvs k v) k' = dictGet? kvs k' := by
  induction kvs with
  | nil => simp [dictSet, dictGet?, Ne.symm h]
  | cons kv rest ih =>
    obtain ⟨k0, v0⟩ := kv
    by_cases h0 : k0 = k
    · subst h0
      simp [dictSet, dictGet?, Ne.symm h]
    · simp [dictSet, dictGet?, h0, ih]

theorem dictHas_dictSet_self (kvs : List (String × Json)) (k : String) (v : Json) :
    dictHas (dictSet kvs k v) k = true := by
  simp [dictHas, dictGet?_dictSet_self]

theorem dictSet_get_self (kvs : List (String × Json)) (k : String) (v : Json)
    (h : dictGet? kvs k = some v) : dictSet kvs k v = kvs := by
  induction kvs with
  | nil => simp [dictGet?] at h
  | cons kv rest ih =>
    obtain ⟨k0, v0⟩ := kv
    by_cases h0 : k0 = k
    · subst h0
      simp [dictGet?] at h
      simp [dictSet, h]
    · simp [dictGet?, h0] at h
      simp [dictSet, h0, ih h]

theorem dictSet_dictSet (kvs : List (String × Json)) (k : String) (v w : Json) :
    dictSet (dictSet kvs k v) k w = dictSet kvs k w := by
  induction kvs with
  | nil => simp [dictSet]
  | cons kv rest ih =>
    obtain ⟨k0, v0⟩ := kv
    by_cases h0 : k0 = k
    · simp [dictSet, h0]
    · simp [dictSet, h0, ih]

theorem dictGet?_delKey_self (kvs : List (String × Json)) (k : String) :
    dictGet? (delKey kvs k) k = none := by
  induction kvs with
  | nil => simp [delKey, dictGet?]
  | cons kv rest ih =>
    obtain ⟨k0, v0⟩ := kv
    by_cases h0 : k0 = k
    · simpa [delKey, h0] using ih
    · simpa [delKey, dictGet?, h0] using ih

theorem dictGet?_delKey_ne (kvs : List (String × Json)) (k k' : String)
    (h : k' ≠ k) : dictGet? (delKey kvs k) k' = dictGet? kvs k' := by
  induction kvs with
  | nil => simp [delKey]
  | cons kv rest ih =>
    obtain ⟨k0, v0⟩ := kv
    by_cases h0 : k0 = k
    · subst h0
      simpa [delKey, dictGet?, Ne.symm h] using ih
    · by_cases h1 : k0 = k'
      · simp [delKey, dictGet?, h0, h1, h]
      · simpa [delKey, dictGet?, h0, h1] using ih

theorem dictGet?_fixPropsPass (items : List (String × Json)) (k : String) :
    dictGet? (fixPropsPass items) k = (dictGet? items k).map fixPropAction := by
  induction items with
  | nil => simp [fixPropsPass, dictGet?]
  | cons kv rest ih =>
    obtain ⟨k0, v0⟩ := kv
    by_cases h0 : k0 = k
    · simp [fixPropsPass, dictGet?, h0]
    · simpa [fixPropsPass, dictGet?, h0] using ih

/-! ## The representation heuristic never fires on a dict -/

theorem reprIsNone_obj (kvs : List (String × Json)) :
    reprIsNone (Json.obj kvs) = false := by
  apply Bool.eq_false_iff.mpr
  intro h
  rw [reprIsNone] at h
  rw [beq_iff_eq] at h
  rw [show pyRepr (Json.obj kvs) = lbraceChar :: (pyReprItems kvs ++ [rbraceChar]) from by
    simp [pyRepr]] at h
  simp only [List.map_cons] at h
  have h1 : Char.toLower lbraceChar = 'n' := (List.cons.injEq _ _ _ _).mp h |>.1
  exact absurd h1 (by decide)

/-! ## Detector lemmas -/

theorem isNullTypedProp_obj (kvs : List (String × Json)) :
    isNullTypedProp (Json.obj kvs) = (typeIsNull kvs || enumIsNullList kvs) := by
  simp [isNullTypedProp, reprIsNone_obj]

theorem validatePropFlag_of_not_nullTyped {v : Json}
    (h : isNullTypedProp v = false) : validatePropFlag v = false := by
  cases v with
  | obj kvs =>
    rw [isNullTypedProp_obj] at h
    simpa [validatePropFlag] using h
  | null => rfl
  | bool b => rfl
  | num n => rfl
  | str s => rfl
  | arr xs => rfl

theorem isNullTypedProp_fixedProp : isNullTypedProp fixedProp = false := rfl

theorem validatePropFlag_fixedProp : validatePropFlag fixedProp = false := rfl

theorem isNullTypedProp_fixPropAction (v : Json) :
    isNullTypedProp (fixPropAction v) = false := by
  rw [fixPropAction]
  by_cases h : isNullTypedProp v = true
  · simp [h, isNullTypedProp_fixedProp]
  · simp only [Bool.not_eq_true] at h
    simp [h]

theorem validatePropFlag_fixPropAction (v : Json) :
    validatePropFlag (fixPropAction v) = false :=
  validatePropFlag_of_not_nullTyped (isNullTypedProp_fixPropAction v)

theorem fixPropAction_of_not_obj {v : Json} (h : v.isObj = false) :
    fixPropAction v = v := by
  cases v <;> simp_all [fixPropAction, isNullTypedProp, Json.isObj]

theorem validateProps_fixPropsPass (items : List (String × Json)) :
    validateProps (fixPropsPass items) = true := by
  simp [fixPropsPass, validateProps, validatePropFlag_fixPropAction]

theorem fixPropAction_idem (v : Json) :
    fixPropAction (fixPropAction v) = fixPropAction v := by
  by_cases hv : isNullTypedProp v = true
  · simp [fixPropAction, hv, isNullTypedProp_fixedProp]
  · simp only [Bool.not_eq_true] at hv
    simp [fixPropAction, hv]

theorem fixPropsPass_fixPropsPass (items : List (String × Json)) :
    fixPropsPass (fixPropsPass items) = fixPropsPass items := by
  simp [fixPropsPass, List.map_map, Function.comp, fixPropAction_idem]


/-! ## Per-schema lemmas for the general sweep -/

theorem fixSchemaPass_char {sch sch' : Json}
    (h : fixSchemaPass sch = Except.ok sch') :
    (sch' = sch ∧ (∀ kvs, sch = Json.obj kvs → dictHas kvs "properties" = false)) ∨
    (∃ kvs pitems,
      sch = Json.obj kvs ∧
      dictGet? kvs "properties" = some (Json.obj pitems) ∧
      sch' = Json.obj (dictSet kvs "properties" (Json.obj (fixPropsPass pitems)))) := by
  cases sch with
  | obj kvs =>
    unfold fixSchemaPass at h
    dsimp only at h
    by_cases hp : dictHas kvs "properties" = true
    · rw [if_pos hp] at h
      cases hg : pyGetItem (Json.obj kvs) "properties" with
      | error e => rw [hg] at h; cases h
      | ok props =>
        rw [hg] at h
        dsimp only at h
        cases hi : pyItems props with
        | error e => rw [hi] at h; cases h
        | ok pitems =>
          rw [hi] at h
          dsimp only at h
          injection h with h
          cases props with
          | obj pkvs =>
            rw [pyItems] at hi
            injection hi with hi
            subst hi
            rw [pyGetItem] at hg
            refine Or.inr ⟨kvs, pkvs, rfl, ?_, h.symm⟩
            cases hd : dictGet? kvs "properties" with
            | none => rw [hd] at hg; cases hg
            | some p0 =>
              rw [hd] at hg
              dsimp only at hg
              injection hg with hg
              rw [hg]
          | null => cases hi
          | bool b => cases hi
          | num n => cases hi
          | str s => cases hi
          | arr xs => cases hi
    · rw [if_neg hp] at h
      injection h with h
      refine Or.inl ⟨h.symm, fun kvs' hk => ?_⟩
      injection hk with hk
      subst hk
      simpa using hp
  | null => injection h with h; exact Or.inl ⟨h.symm, by intro kvs hk; cases hk⟩
  | bool b => injection h with h; exact Or.inl ⟨h.symm, by intro kvs hk; cases hk⟩
  | num n => injection h with h; exact Or.inl ⟨h.symm, by intro kvs hk; cases hk⟩
  | str s => injection h with h; exact Or.inl ⟨h.symm, by intro kvs hk; cases hk⟩
  | arr xs => injection h with h; exact Or.inl ⟨h.symm, by intro kvs hk; cases hk⟩

theorem fixSchemaPass_ok_validate {sch sch' : Json}
    (h : fixSchemaPass sch = Except.ok sch') :
    validateSchemaPass sch' = Except.ok true := by
  rcases fixSchemaPass_char h with ⟨heq, hno⟩ | ⟨kvs, pitems, hsch, hget, heq⟩
  · rw [heq]
    cases sch with
    | obj kvs => simp [validateSchemaPass, hno kvs rfl]
    | null => rfl
    | bool b => rfl
    | num n => rfl
    | str s => rfl
    | arr xs => rfl
  · subst heq
    simp [validateSchemaPass, pyGetItem, pyItems, dictHas_dictSet_self,
      dictGet?_dictSet_self, validateProps_fixPropsPass]

theorem fixSchemaPass_idem {sch sch' : Json}
    (h : fixSchemaPass sch = Except.ok sch') :
    fixSchemaPass sch' = Except.ok sch' := by
  rcases fixSchemaPass_char h with ⟨heq, hno⟩ | ⟨kvs, pitems, hsch, hget, heq⟩
  · rw [heq] at h ⊢; exact h
  · subst heq
    simp [fixSchemaPass, pyGetItem, pyItems, dictHas_dictSet_self,
      dictGet?_dictSet_self, dictSet_dictSet, fixPropsPass_fixPropsPass]

/-! ## List-level lemmas for the general sweep -/

theorem fixSchemasPass_validate {items items' : List (String × Json)}
    (h : fixSchemasPass items = Except.ok items') :
    validateSchemasList items' = Except.ok true := by
  induction items generalizing items' with
  | nil =>
    rw [fixSchemasPass] at h
    injection h with h
    subst h
    rfl
  | cons kv rest ih =>
    obtain ⟨n, sch⟩ := kv
    rw [fixSchemasPass] at h
    cases hf : fixSchemaPass sch with
    | error e => rw [hf] at h; cases h
    | ok sch' =>
      rw [hf] at h
      dsimp only at h
      cases hr : fixSchemasPass rest with
      | error e => rw [hr] at h; cases h
      | ok rest' =>
        rw [hr] at h
        dsimp only at h
        injection h with h
        subst h
        simp [validateSchemasList, fixSchemaPass_ok_validate hf, ih hr]

theorem fixSchemasPass_idem {items items' : List (String × Json)}
    (h : fixSchemasPass items = Except.ok items') :
    fixSchemasPass items' = Except.ok items' := by
  induction items generalizing items' with
  | nil =>
    rw [fixSchemasPass] at h
    injection h with h
    subst h
    rfl
  | cons kv rest ih =>
    obtain ⟨n, sch⟩ := kv
    rw [fixSchemasPass] at h
    cases hf : fixSchemaPass sch with
    | error e => rw [hf] at h; cases h
    | ok sch' =>
      rw [hf] at h
      dsimp only at h
      cases hr : fixSchemasPass rest with
      | error e => rw [hr] at h; cases h
      | ok rest' =>
        rw [hr] at h
        dsimp only at h
        injection h with h
        subst h
        simp [fixSchemasPass, fixSchemaPass_idem hf, ih hr]

theorem fixSchemasPass_get {items items' : List (String × Json)}
    (h : fixSchemasPass items = Except.ok items') (s : String) :
    (dictGet? items s = none ∧ dictGet? items' s = none) ∨
    (∃ sch sch', dictGet? items s = some sch ∧ dictGet? items' s = some sch' ∧
      fixSchemaPass sch = Except.ok sch') := by
  induction items generalizing items' with
  | nil =>
    rw [fixSchemasPass] at h
    injection h with h
    subst h
    exact Or.inl ⟨rfl, rfl⟩
  | cons kv rest ih =>
    obtain ⟨n, sch⟩ := kv
    rw [fixSchemasPass] at h
    cases hf : fixSchemaPass sch with
    | error e => rw [hf] at h; cases h
    | ok sch' =>
      rw [hf] at h
      dsimp only at h
      cases hr : fixSchemasPass rest with
      | error e => rw [hr] at h; cases h
      | ok rest' =>
        rw [hr] at h
        dsimp only at h
        injection h with h
        subst h
        by_cases hn : n = s
        · exact Or.inr ⟨sch, sch', by simp [dictGet?, hn], by simp [dictGet?, hn], hf⟩
        · rcases ih hr with ⟨h1, h2⟩ | ⟨a, b, h1, h2, h3⟩
          · exact Or.inl ⟨by simp [dictGet?, hn, h1], by simp [dictGet?, hn, h2]⟩
          · exact Or.inr ⟨a, b, by simp [dictGet?, hn, h1], by simp [dictGet?, hn, h2], h3⟩

/-! ## Inversion helpers for the Python operations -/

theorem pyGetItem_isObj {j : Json} {k : String} {v : Json}
    (h : pyGetItem j k = Except.ok v) :
    ∃ kvs, j = Json.obj kvs ∧ dictGet? kvs k = some v := by
  cases j with
  | obj kvs =>
    refine ⟨kvs, rfl, ?_⟩
    rw [pyGetItem] at h
    cases hd : dictGet? kvs k with
    | none => rw [hd] at h; cases h
    | some v0 =>
      rw [hd] at h
      dsimp only at h
      injection h with h
      rw [h]
  | null => cases h
  | bool b => cases h
  | num n => cases h
  | str s => cases h
  | arr xs => cases h

theorem pyItems_isObj {j : Json} {items : List (String × Json)}
    (h : pyItems j = Except.ok items) : j = Json.obj items := by
  cases j with
  | obj kvs => rw [pyItems] at h; injection h with h; rw [h]
  | null => cases h
  | bool b => cases h
  | num n => cases h
  | str s => cases h
  | arr xs => cases h

/-! ## Characterization of fix_invalid_schemas -/

theorem fix_invalid_char {d d' : Json}
    (h : fix_invalid_schemas d = Except.ok d') :
    (d' = d ∧ validate_schemas d = Except.ok true ∧ fix_invalid_schemas d = Except.ok d) ∨
    (∃ dKvs compKvs items items',
      d = Json.obj dKvs ∧
      dictGet? dKvs "components" = some (Json.obj compKvs) ∧
      dictGet? compKvs "schemas" = some (Json.obj items) ∧
      fixSchemasPass items = Except.ok items' ∧
      d' = Json.obj (dictSet dKvs "components"
        (Json.obj (dictSet compKvs "schemas" (Json.obj items'))))) := by
  unfold fix_invalid_schemas at h
  cases hc : pyIn "components" d with
  | error e => rw [hc] at h; cases h
  | ok cb =>
    rw [hc] at h
    cases cb with
    | false =>
      dsimp only at h
      injection h with h
      subst h
      exact Or.inl ⟨rfl, by rw [validate_schemas, hc], by rw [fix_invalid_schemas, hc]⟩
    | true =>
      dsimp only at h
      cases hcomp : pyGetItem d "components" with
      | error e => rw [hcomp] at h; cases h
      | ok comp =>
        rw [hcomp] at h
        dsimp only at h
        cases hs : pyIn "schemas" comp with
        | error e => rw [hs] at h; cases h
        | ok sb =>
          rw [hs] at h
          cases sb with
          | false =>
            dsimp only at h
            injection h with h
            subst h
            refine Or.inl ⟨rfl, ?_, ?_⟩
            · rw [validate_schemas, hc]
              dsimp only
              rw [hcomp]
              dsimp only
              rw [hs]
            · rw [fix_invalid_schemas, hc]
              dsimp only
              rw [hcomp]
              dsimp only
              rw [hs]
          | true =>
            dsimp only at h
            cases hsch : pyGetItem comp "schemas" with
            | error e => rw [hsch] at h; cases h
            | ok schemasJ =>
              rw [hsch] at h
              dsimp only at h
              cases hit : pyItems schemasJ with
              | error e => rw [hit] at h; cases h
              | ok items =>
                rw [hit] at h
                dsimp only at h
                cases hfx : fixSchemasPass items with
                | error e => rw [hfx] at h; cases h
                | ok items' =>
                  rw [hfx] at h
                  dsimp only at h
                  obtain ⟨dKvs, rfl, hget0⟩ := pyGetItem_isObj hcomp
                  obtain ⟨compKvs, hcompEq, hget1⟩ := pyGetItem_isObj hsch
                  subst hcompEq
                  have hitEq := pyItems_isObj hit
                  subst hitEq
                  rw [pySetItem] at h
                  dsimp only at h
                  rw [pySetItem] at h
                  injection h with h
                  exact Or.inr ⟨dKvs, compKvs, items, items', rfl, hget0, hget1, hfx, h.symm⟩

theorem validate_after_fix {d d' : Json}
    (h : fix_invalid_schemas d = Except.ok d') :
    validate_schemas d' = Except.ok true := by
  rcases fix_invalid_char h with ⟨heq, hval, _⟩ | ⟨dKvs, compKvs, items, items', hd, hg0, hg1, hfx, heq⟩
  · rw [heq]; exact hval
  · subst heq
    simp [validate_schemas, pyIn, pyGetItem, pyItems, dictHas_dictSet_self,
      dictGet?_dictSet_self, fixSchemasPass_validate hfx]

theorem fix_invalid_idem {d d' : Json}
    (h : fix_invalid_schemas d = Except.ok d') :
    fix_invalid_schemas d' = Except.ok d' := by
  rcases fix_invalid_char h with ⟨heq, _, hfixd⟩ | ⟨dKvs, compKvs, items, items', hd, hg0, hg1, hfx, heq⟩
  · rw [heq]; exact hfixd
  · subst heq
    simp [fix_invalid_schemas, pyIn, pyGetItem, pyItems, pySetItem,
      dictHas_dictSet_self, dictGet?_dictSet_self, dictSet_dictSet,
      fixSchemasPass_idem hfx]

/-! ## Characterization of the named-schema pass -/

theorem fixIdInSchemas_char {sJ s' : Json} {name : String}
    (h : fixIdInSchemas sJ name = Except.ok s') :
    s' = sJ ∨
    (∃ kvs sdefKvs propsKvs idp,
      sJ = Json.obj kvs ∧
      dictGet? kvs name = some (Json.obj sdefKvs) ∧
      dictGet? sdefKvs "properties" = some (Json.obj propsKvs) ∧
      dictGet? propsKvs "id" = some idp ∧
      isNullTypedProp idp = true ∧
      s' = Json.obj (dictSet kvs name (Json.obj (dictSet sdefKvs "properties"
        (Json.obj (dictSet propsKvs "id" fixedProp)))))) := by
  unfold fixIdInSchemas at h
  cases h0 : pyIn name sJ with
  | error e => rw [h0] at h; cases h
  | ok b0 =>
    rw [h0] at h
    cases b0 with
    | false => dsimp only at h; injection h with h; exact Or.inl h.symm
    | true =>
      dsimp only at h
      cases h1 : pyGetItem sJ name with
      | error e => rw [h1] at h; cases h
      | ok sdef =>
        rw [h1] at h
        dsimp only at h
        cases h2 : pyIn "properties" sdef with
        | error e => rw [h2] at h; cases h
        | ok b2 =>
          rw [h2] at h
          cases b2 with
          | false => dsimp only at h; injection h with h; exact Or.inl h.symm
          | true =>
            dsimp only at h
            cases h3 : pyGetItem sdef "properties" with
            | error e => rw [h3] at h; cases h
            | ok props =>
              rw [h3] at h
              dsimp only at h
              cases h4 : pyIn "id" props with
              | error e => rw [h4] at h; cases h
              | ok b4 =>
                rw [h4] at h
                cases b4 with
                | false => dsimp only at h; injection h with h; exact Or.inl h.symm
                | true =>
                  dsimp only at h
                  cases h5 : pyGetItem props "id" with
                  | error e => rw [h5] at h; cases h
                  | ok idp =>
                    rw [h5] at h
                    dsimp only at h
                    by_cases hdet : isNullTypedProp idp = true
                    · rw [if_pos hdet] at h
                      obtain ⟨kvs, hsJ, hget0⟩ := pyGetItem_isObj h1
                      obtain ⟨sdefKvs, hsdef, hget1⟩ := pyGetItem_isObj h3
                      obtain ⟨propsKvs, hprops, hget2⟩ := pyGetItem_isObj h5
                      subst hsJ
                      subst hsdef
                      subst hprops
                      rw [pySetItem] at h
                      dsimp only at h
                      rw [pySetItem] at h
                      dsimp only at h
                      rw [pySetItem] at h
                      injection h with h
                      exact Or.inr ⟨kvs, sdefKvs, propsKvs, idp, rfl, hget0, hget1,
                        hget2, hdet, h.symm⟩
                    · rw [if_neg hdet] at h
                      injection h with h
                      exact Or.inl h.symm

theorem pyIn_false_jget {k : String} {j : Json}
    (h : pyIn k j = Except.ok false) : jget j k = none := by
  cases j with
  | obj kvs =>
    rw [pyIn] at h
    injection h with h
    rw [jget]
    cases hd : dictGet? kvs k with
    | none => rfl
    | some v => rw [dictHas, hd] at h; cases h
  | arr xs => rfl
  | str s => rfl
  | null => cases h
  | bool b => cases h
  | num n => cases h

theorem fix_none_char {d d' : Json}
    (h : fix_none_typed_ids d = Except.ok d') :
    (d' = d ∧ schemasPath d = none) ∨
    (∃ dKvs compKvs schemas0 s1 s2,
      d = Json.obj dKvs ∧
      dictGet? dKvs "components" = some (Json.obj compKvs) ∧
      dictGet? compKvs "schemas" = some schemas0 ∧
      fixIdInSchemas schemas0 "EntityDefNew" = Except.ok s1 ∧
      fixIdInSchemas s1 "FieldChoiceNewApi" = Except.ok s2 ∧
      d' = Json.obj (dictSet dKvs "components"
        (Json.obj (dictSet compKvs "schemas" s2)))) := by
  unfold fix_none_typed_ids at h
  cases hc : pyIn "components" d with
  | error e => rw [hc] at h; cases h
  | ok cb =>
    rw [hc] at h
    cases cb with
    | false =>
      dsimp only at h
      injection h with h
      refine Or.inl ⟨h.symm, ?_⟩
      rw [schemasPath, pyIn_false_jget hc]
      rfl
    | true =>
      dsimp only at h
      cases hcomp : pyGetItem d "components" with
      | error e => rw [hcomp] at h; cases h
      | ok comp =>
        rw [hcomp] at h
        dsimp only at h
        cases hs : pyIn "schemas" comp with
        | error e => rw [hs] at h; cases h
        | ok sb =>
          rw [hs] at h
          cases sb with
          | false =>
            dsimp only at h
            injection h with h
            refine Or.inl ⟨h.symm, ?_⟩
            obtain ⟨dKvs, hdEq, hget0⟩ := pyGetItem_isObj hcomp
            subst hdEq
            rw [schemasPath, jget, hget0]
            exact pyIn_false_jget hs
          | true =>
            dsimp only at h
            cases hsch : pyGetItem comp "schemas" with
            | error e => rw [hsch] at h; cases h
            | ok schemas0 =>
              rw [hsch] at h
              dsimp only at h
              cases hf1 : fixIdInSchemas schemas0 "EntityDefNew" with
              | error e => rw [hf1] at h; cases h
              | ok s1 =>
                rw [hf1] at h
                dsimp only at h
                cases hf2 : fixIdInSchemas s1 "FieldChoiceNewApi" with
                | error e => rw [hf2] at h; cases h
                | ok s2 =>
                  rw [hf2] at h
                  dsimp only at h
                  obtain ⟨dKvs, hdEq, hget0⟩ := pyGetItem_isObj hcomp
                  obtain ⟨compKvs, hcompEq, hget1⟩ := pyGetItem_isObj hsch
                  subst hdEq
                  subst hcompEq
                  rw [pySetItem] at h
                  dsimp only at h
                  rw [pySetItem] at h
                  injection h with h
                  exact Or.inr ⟨dKvs, compKvs, schemas0, s1, s2, rfl, hget0, hget1,
                    hf1, hf2, h.symm⟩

/-! ## Non-dict property values are inert -/

theorem isNullTypedProp_of_not_obj {v : Json} (h : v.isObj = false) :
    isNullTypedProp v = false := by
  cases v <;> first | rfl | (rw [Json.isObj] at h; cases h)

theorem validatePropFlag_of_not_obj {v : Json} (h : v.isObj = false) :
    validatePropFlag v = false :=
  validatePropFlag_of_not_nullTyped (isNullTypedProp_of_not_obj h)

theorem fixSchemaPass_prop_preserve {sch sch' : Json} {p : String} {v : Json}
    (hfp : fixSchemaPass sch = Except.ok sch') (hv : v.isObj = false)
    (hyp : (jget sch "properties").bind (fun pr => jget pr p) = some v) :
    (jget sch' "properties").bind (fun pr => jget pr p) = some v := by
  rcases fixSchemaPass_char hfp with ⟨heq, _⟩ | ⟨kvs, pitems, hsch, hget, heq⟩
  · rw [heq]; exact hyp
  · subst heq
    subst hsch
    rw [jget, hget] at hyp
    rw [jget, dictGet?_dictSet_self]
    simp only [Option.some_bind] at hyp ⊢
    rw [jget] at hyp ⊢
    rw [dictGet?_fixPropsPass, hyp]
    simp [fixPropAction_of_not_obj hv]

theorem fixIdInSchemas_prop_preserve {sJ s' : Json} {name s p : String} {v : Json}
    (h : fixIdInSchemas sJ name = Except.ok s') (hv : v.isObj = false)
    (hyp : (jget sJ s).bind
      (fun sch => (jget sch "properties").bind (fun pr => jget pr p)) = some v) :
    (jget s' s).bind
      (fun sch => (jget sch "properties").bind (fun pr => jget pr p)) = some v := by
  rcases fixIdInSchemas_char h with heq | ⟨kvs, sdefKvs, propsKvs, idp, hsJ, hg0, hg1, hg2, hdet, heq⟩
  · rw [heq]; exact hyp
  · subst heq
    subst hsJ
    by_cases hss : s = name
    · subst hss
      rw [jget, hg0] at hyp
      rw [jget, dictGet?_dictSet_self]
      simp only [Option.some_bind] at hyp ⊢
      rw [jget, hg1] at hyp
      rw [jget, dictGet?_dictSet_self]
      simp only [Option.some_bind] at hyp ⊢
      rw [jget] at hyp ⊢
      by_cases hpp : p = "id"
      · subst hpp
        rw [hg2] at hyp
        injection hyp with hyp
        subst hyp
        rw [isNullTypedProp_of_not_obj hv] at hdet
        cases hdet
      · rw [dictGet?_dictSet_ne _ _ _ _ hpp]
        exact hyp
    · rw [jget] at hyp
      rw [jget, dictGet?_dictSet_ne _ _ _ _ hss]
      exact hyp

/-! ## Frame lemmas for the named-schema pass -/

theorem fixIdInSchemas_jget_ne {sJ s' : Json} {name s : String}
    (h : fixIdInSchemas sJ name = Except.ok s') (hs : s ≠ name) :
    jget s' s = jget sJ s := by
  rcases fixIdInSchemas_char h with heq | ⟨kvs, sdefKvs, propsKvs, idp, hsJ, _, _, _, _, heq⟩
  · rw [heq]
  · subst heq
    subst hsJ
    rw [jget, jget, dictGet?_dictSet_ne _ _ _ _ hs]

theorem fixIdInSchemas_jget_name_k {sJ s' : Json} {name k : String}
    (h : fixIdInSchemas sJ name = Except.ok s') (hk : k ≠ "properties") :
    (jget s' name).bind (fun sch => jget sch k) =
    (jget sJ name).bind (fun sch => jget sch k) := by
  rcases fixIdInSchemas_char h with heq | ⟨kvs, sdefKvs, propsKvs, idp, hsJ, hg0, _, _, _, heq⟩
  · rw [heq]
  · subst heq
    subst hsJ
    rw [jget, jget, dictGet?_dictSet_self, hg0]
    simp only [Option.some_bind]
    rw [jget, jget, dictGet?_dictSet_ne _ _ _ _ hk]

theorem fixIdInSchemas_prop_ne {sJ s' : Json} {name p : String}
    (h : fixIdInSchemas sJ name = Except.ok s') (hp : p ≠ "id") :
    ((jget s' name).bind (fun sch => jget sch "properties")).bind (fun pr => jget pr p) =
    ((jget sJ name).bind (fun sch => jget sch "properties")).bind (fun pr => jget pr p) := by
  rcases fixIdInSchemas_char h with heq | ⟨kvs, sdefKvs, propsKvs, idp, hsJ, hg0, hg1, _, _, heq⟩
  · rw [heq]
  · subst heq
    subst hsJ
    rw [jget, jget, dictGet?_dictSet_self, hg0]
    simp only [Option.some_bind]
    rw [jget, jget, dictGet?_dictSet_self, hg1]
    simp only [Option.some_bind]
    rw [jget, jget, dictGet?_dictSet_ne _ _ _ _ hp]

theorem fixIdInSchemas_id_map {sJ s' : Json} {name : String}
    (h : fixIdInSchemas sJ name = Except.ok s') :
    ((jget s' name).bind (fun sch => jget sch "properties")).bind (fun pr => jget pr "id") =
    (((jget sJ name).bind (fun sch => jget sch "properties")).bind (fun pr => jget pr "id")).map
      (fun idp => if isNullTypedProp idp then fixedProp else idp) := by
  unfold fixIdInSchemas at h
  cases h0 : pyIn name sJ with
  | error e => rw [h0] at h; cases h
  | ok b0 =>
    rw [h0] at h
    cases b0 with
    | false =>
      dsimp only at h
      injection h with h
      rw [h.symm, pyIn_false_jget h0]
      rfl
    | true =>
      dsimp only at h
      cases h1 : pyGetItem sJ name with
      | error e => rw [h1] at h; cases h
      | ok sdef =>
        rw [h1] at h
        dsimp only at h
        obtain ⟨kvs, hsJ, hget0⟩ := pyGetItem_isObj h1
        cases h2 : pyIn "properties" sdef with
        | error e => rw [h2] at h; cases h
        | ok b2 =>
          rw [h2] at h
          cases b2 with
          | false =>
            dsimp only at h
            injection h with h
            rw [h.symm, hsJ, jget, hget0]
            simp only [Option.some_bind]
            rw [pyIn_false_jget h2]
            rfl
          | true =>
            dsimp only at h
            cases h3 : pyGetItem sdef "properties" with
            | error e => rw [h3] at h; cases h
            | ok props =>
              rw [h3] at h
              dsimp only at h
              obtain ⟨sdefKvs, hsdef, hget1⟩ := pyGetItem_isObj h3
              cases h4 : pyIn "id" props with
              | error e => rw [h4] at h; cases h
              | ok b4 =>
                rw [h4] at h
                cases b4 with
                | false =>
                  dsimp only at h
                  injection h with h
                  rw [h.symm, hsJ, jget, hget0]
                  simp only [Option.some_bind]
                  rw [hsdef, jget, hget1]
                  simp only [Option.some_bind]
                  rw [pyIn_false_jget h4]
                  rfl
                | true =>
                  dsimp only at h
                  cases h5 : pyGetItem props "id" with
                  | error e => rw [h5] at h; cases h
                  | ok idp =>
                    rw [h5] at h
                    dsimp only at h
                    obtain ⟨propsKvs, hprops, hget2⟩ := pyGetItem_isObj h5
                    by_cases hdet : isNullTypedProp idp = true
                    · rw [if_pos hdet] at h
                      subst hsJ
                      subst hsdef
                      subst hprops
                      rw [pySetItem] at h
                      dsimp only at h
                      rw [pySetItem] at h
                      dsimp only at h
                      rw [pySetItem] at h
                      injection h with h
                      rw [h.symm]
                      rw [jget, dictGet?_dictSet_self]
                      simp only [Option.some_bind]
                      rw [jget, dictGet?_dictSet_self]
                      simp only [Option.some_bind]
                      rw [jget, dictGet?_dictSet_self]
                      rw [jget, hget0]
                      simp only [Option.some_bind]
                      rw [jget, hget1]
                      simp only [Option.some_bind]
                      rw [jget, hget2]
                      simp [hdet]
                    · rw [if_neg hdet] at h
                      injection h with h
                      rw [h.symm, hsJ, jget, hget0]
                      simp only [Option.some_bind]
                      rw [hsdef, jget, hget1]
                      simp only [Option.some_bind]
                      rw [hprops, jget, hget2]
                      simp only [Bool.not_eq_true] at hdet
                      simp [hdet]

/-! ## The named pass cannot raise on well-formed paths -/

theorem exists_ok_of_isOk {r : PyResult Json} (h : r.isOk = true) :
    ∃ a, r = Except.ok a := by
  cases r with
  | error e => cases h
  | ok a => exact ⟨a, rfl⟩

theorem fixIdInSchemas_wf_isOk {schKvs : List (String × Json)} {name : String}
    (hwf : namedSchemaWF schKvs name = true) :
    (fixIdInSchemas (Json.obj schKvs) name).isOk = true := by
  rw [namedSchemaWF] at hwf
  cases hd0 : dictGet? schKvs name with
  | none => simp [fixIdInSchemas, pyIn, dictHas, hd0, Except.isOk, Except.toBool]
  | some sdef =>
    rw [hd0] at hwf
    cases sdef with
    | obj sdefKvs =>
      dsimp only at hwf
      cases hd1 : dictGet? sdefKvs "properties" with
      | none =>
        simp [fixIdInSchemas, pyIn, pyGetItem, dictHas, hd0, hd1, Except.isOk,
          Except.toBool]
      | some props =>
        rw [hd1] at hwf
        cases props with
        | obj propsKvs =>
          cases hd2 : dictGet? propsKvs "id" with
          | none =>
            simp [fixIdInSchemas, pyIn, pyGetItem, dictHas, hd0, hd1, hd2,
              Except.isOk, Except.toBool]
          | some idp =>
            by_cases hdet : isNullTypedProp idp = true
            · simp [fixIdInSchemas, pyIn, pyGetItem, pySetItem, dictHas, hd0, hd1,
                hd2, hdet, Except.isOk, Except.toBool]
            · simp [fixIdInSchemas, pyIn, pyGetItem, dictHas, hd0, hd1, hd2, hdet,
                Except.isOk, Except.toBool]
        | null => simp at hwf
        | bool b => simp at hwf
        | num n => simp at hwf
        | str s => simp at hwf
        | arr xs => simp at hwf
    | null => simp at hwf
    | bool b => simp at hwf
    | num n => simp at hwf
    | str s => simp at hwf
    | arr xs => simp at hwf

theorem namedSchemaWF_after_fixId {schKvs : List (String × Json)} {s1 : Json}
    {nameA nameB : String}
    (h : fixIdInSchemas (Json.obj schKvs) nameA = Except.ok s1)
    (hne : nameB ≠ nameA) (hwf : namedSchemaWF schKvs nameB = true) :
    ∃ s1Kvs, s1 = Json.obj s1Kvs ∧ namedSchemaWF s1Kvs nameB = true := by
  rcases fixIdInSchemas_char h with heq | ⟨kvs, sdefKvs, propsKvs, idp, hsJ, _, _, _, _, heq⟩
  · exact ⟨schKvs, heq, hwf⟩
  · injection hsJ with hsJ
    subst hsJ
    subst heq
    refine ⟨_, rfl, ?_⟩
    rw [namedSchemaWF, dictGet?_dictSet_ne _ _ _ _ hne]
    rw [namedSchemaWF] at hwf
    exact hwf

/-! ## Claim theorems -/

/-- C2: for every JSON document d, running validate_schemas on the result
of fix_invalid_schemas d returns true — after the general fix pass no
property under components.schemas.name.properties has type "null" or
enum [null]. -/
theorem claim_C2 (d d' : Json) (h : fix_invalid_schemas d = Except.ok d') :
    validate_schemas d' = Except.ok true :=
  validate_after_fix h

/-- Witness for C2 at a document whose Widget.color property is
enum [null]: the fix pass rewrites it and validation succeeds. -/
theorem claim_C2_witness :
    validate_schemas (Json.obj [("components", Json.obj [("schemas", Json.obj
      [("Widget", Json.obj [("properties", Json.obj
        [("color", fixedProp)])])])])]) = Except.ok true :=
  claim_C2
    (Json.obj [("components", Json.obj [("schemas", Json.obj
      [("Widget", Json.obj [("properties", Json.obj
        [("color", Json.obj [("enum", Json.arr [Json.null])])])])])])])
    (Json.obj [("components", Json.obj [("schemas", Json.obj
      [("Widget", Json.obj [("properties", Json.obj
        [("color", fixedProp)])])])])])
    rfl

/-- C8: fix_invalid_schemas is idempotent — its replacement shape is not
matched by the null-typed detector, and running the pass again after a
completed run changes nothing (on a raised run the composition raises
the same error). -/
theorem claim_C8 (d : Json) :
    isNullTypedProp fixedProp = false ∧
    (fix_invalid_schemas d).bind fix_invalid_schemas = fix_invalid_schemas d := by
  refine ⟨rfl, ?_⟩
  cases hf : fix_invalid_schemas d with
  | error e => rfl
  | ok d' => exact fix_invalid_idem hf

/-- C4: when the post-fix validation fails the flow produces nothing to
write, prints the failure line and exits 0; and a document is written
only when the post-fix validation succeeds. -/
theorem claim_C4 :
    (∀ s : Json, patcherFinish s false = none ∧
      patcherOutcome (Except.ok (patcherFinish s false)) =
        PatcherRun.mk none true 0) ∧
    (∀ d out, (runPatcher d).written = some out →
      ∃ d2, (fix_none_typed_ids d).bind fix_invalid_schemas = Except.ok d2 ∧
        validate_schemas d2 = Except.ok true ∧ out = d2) := by
  constructor
  · intro s
    exact ⟨rfl, rfl⟩
  · intro d out h
    rw [runPatcher] at h
    cases hpre : preprocess_spec d with
    | error e => rw [hpre] at h; simp [patcherOutcome] at h
    | ok r =>
      rw [hpre] at h
      unfold preprocess_spec at hpre
      cases hv1 : validate_schemas d with
      | error e => rw [hv1] at hpre; cases hpre
      | ok v1 =>
        rw [hv1] at hpre
        dsimp only at hpre
        cases hf1 : fix_none_typed_ids d with
        | error e => rw [hf1] at hpre; cases hpre
        | ok spec1 =>
          rw [hf1] at hpre
          dsimp only at hpre
          cases hf2 : fix_invalid_schemas spec1 with
          | error e => rw [hf2] at hpre; cases hpre
          | ok spec2 =>
            rw [hf2] at hpre
            dsimp only at hpre
            cases hv2 : validate_schemas spec2 with
            | error e => rw [hv2] at hpre; cases hpre
            | ok v2 =>
              rw [hv2] at hpre
              dsimp only at hpre
              injection hpre with hpre
              cases v2 with
              | false =>
                rw [← hpre] at h
                simp [patcherFinish, patcherOutcome] at h
              | true =>
                rw [← hpre] at h
                simp only [patcherFinish, if_pos] at h
                simp [patcherOutcome] at h
                refine ⟨spec2, ?_, hv2, h.symm⟩
                exact hf2

/-- Witness for C4 at the empty document: the flow validates, fixes and
writes it unchanged. -/
theorem claim_C4_witness :
    ∃ d2, (fix_none_typed_ids (Json.obj [])).bind fix_invalid_schemas = Except.ok d2 ∧
      validate_schemas d2 = Except.ok true ∧ Json.obj [] = d2 :=
  claim_C4.2 (Json.obj []) (Json.obj []) rfl

/-- C6 corrected: a successfully decoded document on which the flow
raises — {components: {schemas: {A: {properties: 5}}}} — terminates with
an uncaught AttributeError, exit status 1 and nothing written, so the
flow does not always proceed to write the output file. -/
theorem claim_C6_counterexample :
    runPatcher (Json.obj [("components", Json.obj [("schemas",
      Json.obj [("A", Json.obj [("properties", Json.num 5)])])])]) =
    PatcherRun.mk none false 1 := rfl

/-- C6 amended: whenever the flow completes without raising, the failure
branch is unreachable — the post-fix validation has succeeded and the
output document is produced for writing. -/
theorem claim_C6 (d : Json) (r : Option Json)
    (h : preprocess_spec d = Except.ok r) :
    ∃ out, r = some out ∧ (runPatcher d).written = some out := by
  have hpre := h
  unfold preprocess_spec at h
  cases hv1 : validate_schemas d with
  | error e => rw [hv1] at h; cases h
  | ok v1 =>
    rw [hv1] at h
    dsimp only at h
    cases hf1 : fix_none_typed_ids d with
    | error e => rw [hf1] at h; cases h
    | ok spec1 =>
      rw [hf1] at h
      dsimp only at h
      cases hf2 : fix_invalid_schemas spec1 with
      | error e => rw [hf2] at h; cases h
      | ok spec2 =>
        rw [hf2] at h
        dsimp only at h
        cases hv2 : validate_schemas spec2 with
        | error e => rw [hv2] at h; cases h
        | ok v2 =>
          rw [hv2] at h
          dsimp only at h
          injection h with h
          have hval := validate_after_fix hf2
          rw [hval] at hv2
          injection hv2 with hv2
          rw [← hv2] at h
          rw [patcherFinish] at h
          simp only [if_pos] at h
          exact ⟨spec2, h.symm, by rw [runPatcher, hpre, ← h]; rfl⟩

/-- Witness for C6 at the empty document. -/
theorem claim_C6_witness :
    ∃ out, (some (Json.obj []) : Option Json) = some out ∧
      (runPatcher (Json.obj [])).written = some out :=
  claim_C6 (Json.obj []) (some (Json.obj [])) rfl

/-- C5: on a mapping-valued property definition, the null-typed detector
of the fix passes agrees with the condition validate_schemas flags, and
both hold exactly when type equals "null" or enum equals [null] — the
string-representation branch never changes the result on a mapping. -/
theorem claim_C5 (kvs : List (String × Json)) :
    isNullTypedProp (Json.obj kvs) = validatePropFlag (Json.obj kvs) ∧
    (isNullTypedProp (Json.obj kvs) = true ↔
      (typeIsNull kvs = true ∨ enumIsNullList kvs = true)) := by
  constructor
  · rw [isNullTypedProp_obj]
    rfl
  · rw [isNullTypedProp_obj]
    simp [Bool.or_eq_true]

/-- C10: a property entry whose value is not a mapping is never modified
by fix_none_typed_ids or fix_invalid_schemas, is not matched by either
detector, and therefore never makes validate_schemas false — all three
operations test the property value only when it is a mapping. -/
theorem claim_C10 (d d1 d2 : Json) (s p : String) (v : Json)
    (hv : v.isObj = false) (hp : schemaProp d s p = some v) :
    (fix_none_typed_ids d = Except.ok d1 → schemaProp d1 s p = some v) ∧
    (fix_invalid_schemas d = Except.ok d2 → schemaProp d2 s p = some v) ∧
    isNullTypedProp v = false ∧ validatePropFlag v = false := by
  refine ⟨?_, ?_, isNullTypedProp_of_not_obj hv, validatePropFlag_of_not_obj hv⟩
  · intro h
    rcases fix_none_char h with ⟨heq, _⟩ | ⟨dKvs, compKvs, schemas0, s1, s2, hd, hg0, hg1, hfa, hfb, heq⟩
    · rw [heq]; exact hp
    · subst heq
      subst hd
      rw [schemaProp, schemasPath, jget, hg0] at hp
      simp only [Option.some_bind] at hp
      rw [jget, hg1] at hp
      simp only [Option.some_bind] at hp
      rw [schemaProp, schemasPath, jget, dictGet?_dictSet_self]
      simp only [Option.some_bind]
      rw [jget, dictGet?_dictSet_self]
      simp only [Option.some_bind]
      exact fixIdInSchemas_prop_preserve hfb hv (fixIdInSchemas_prop_preserve hfa hv hp)
  · intro h
    rcases fix_invalid_char h with ⟨heq, _, _⟩ | ⟨dKvs, compKvs, items, items', hd, hg0, hg1, hfx, heq⟩
    · rw [heq]; exact hp
    · subst heq
      subst hd
      rw [schemaProp, schemasPath, jget, hg0] at hp
      simp only [Option.some_bind] at hp
      rw [jget, hg1] at hp
      simp only [Option.some_bind] at hp
      rw [schemaProp, schemasPath, jget, dictGet?_dictSet_self]
      simp only [Option.some_bind]
      rw [jget, dictGet?_dictSet_self]
      simp only [Option.some_bind]
      rw [jget] at hp ⊢
      cases hsch : dictGet? items s with
      | none => rw [hsch] at hp; cases hp
      | some sch =>
        rw [hsch] at hp
        simp only [Option.some_bind] at hp
        rcases fixSchemasPass_get hfx s with ⟨h1, _⟩ | ⟨a, b, h1, h2, h3⟩
        · rw [h1] at hsch; cases hsch
        · rw [h1] at hsch
          injection hsch with hsch
          subst hsch
          rw [h2]
          simp only [Option.some_bind]
          exact fixSchemaPass_prop_preserve h3 hv hp

/-- Witness for C10 at a document whose A.weird property is the JSON
string "None": both passes keep it and the detectors reject it. -/
theorem claim_C10_witness :
    schemaProp (Json.obj [("components", Json.obj [("schemas", Json.obj
      [("A", Json.obj [("properties", Json.obj
        [("weird", Json.str "None")])])])])]) "A" "weird" = some (Json.str "None") ∧
    isNullTypedProp (Json.str "None") = false :=
  ⟨(claim_C10
      (Json.obj [("components", Json.obj [("schemas", Json.obj
        [("A", Json.obj [("properties", Json.obj
          [("weird", Json.str "None")])])])])])
      (Json.obj [("components", Json.obj [("schemas", Json.obj
        [("A", Json.obj [("properties", Json.obj
          [("weird", Json.str "None")])])])])])
      (Json.obj [("components", Json.obj [("schemas", Json.obj
        [("A", Json.obj [("properties", Json.obj
          [("weird", Json.str "None")])])])])])
      "A" "weird" (Json.str "None") rfl rfl).1 rfl,
   (claim_C10
      (Json.obj [("components", Json.obj [("schemas", Json.obj
        [("A", Json.obj [("properties", Json.obj
          [("weird", Json.str "None")])])])])])
      (Json.obj [("components", Json.obj [("schemas", Json.obj
        [("A", Json.obj [("properties", Json.obj
          [("weird", Json.str "None")])])])])])
      (Json.obj [("components", Json.obj [("schemas", Json.obj
        [("A", Json.obj [("properties", Json.obj
          [("weird", Json.str "None")])])])])])
      "A" "weird" (Json.str "None") rfl rfl).2.2.1⟩

/-- C1 corrected, counterexample: on the record with assigned_labels
bound to JSON null, the key stays inside the comment subtree with value
null and no labelling key is produced — contradicting the claim that the
key is removed and labelling.assigned is null. -/
theorem claim_C1_counterexample :
    (dictGet? (convert_comment [("assigned_labels", Json.null)]) "comment").bind
      (fun c => jget c "assigned_labels") = some Json.null ∧
    dictGet? (convert_comment [("assigned_labels", Json.null)]) "labelling" = none :=
  ⟨rfl, rfl⟩

/-- C1 amended: when assigned_labels is present with value null the
reshape treats it as absent — the presence check is value-is-not-None,
not key existence — so the key remains in the comment subtree with value
null and no assigned entry is produced under labelling. -/
theorem claim_C1 (old : CommentDict)
    (h : dictGet? old "assigned_labels" = some Json.null) :
    (dictGet? (convert_comment old) "comment").bind
      (fun c => jget c "assigned_labels") = some Json.null ∧
    (dictGet? (convert_comment old) "labelling").bind
      (fun l => jget l "assigned") = none := by
  have ha : isNotNone (pyDictGet old "assigned_labels") = false := by
    rw [pyDictGet, h]
    rfl
  by_cases h2 : isNotNone (pyDictGet old "dismissed_labels") = true <;>
  by_cases h3 : isNotNone (pyDictGet old "assigned_entities") = true <;>
  by_cases h4 : isNotNone (pyDictGet old "dismissed_entities") = true <;>
  simp_all [convert_comment, dictGet?, jget, dictGet?_delKey_ne, dictGet?_delKey_self]

/-- Witness for C1 at the one-key record with a null assigned_labels. -/
theorem claim_C1_witness :
    (dictGet? (convert_comment [("assigned_labels", Json.null)]) "comment").bind
      (fun c => jget c "assigned_labels") = some Json.null ∧
    (dictGet? (convert_comment [("assigned_labels", Json.null)]) "labelling").bind
      (fun l => jget l "assigned") = none :=
  claim_C1 [("assigned_labels", Json.null)] rfl

/-- C3 corrected, counterexample: in the record with assigned_labels
bound to JSON null the key is present, yet labelling is absent from the
reshaped output — the claimed iff with key presence fails. -/
theorem claim_C3_counterexample :
    dictHas [("assigned_labels", Json.null)] "assigned_labels" = true ∧
    dictGet? (convert_comment [("assigned_labels", Json.null)]) "labelling" = none :=
  ⟨rfl, rfl⟩

/-- C3 amended: labelling is absent from the reshaped output iff neither
assigned_labels nor dismissed_labels carries a non-null value in the
input; likewise entities for the two entity keys. -/
theorem claim_C3 (old : CommentDict) :
    (dictGet? (convert_comment old) "labelling" = none ↔
      (isNotNone (pyDictGet old "assigned_labels") = false ∧
       isNotNone (pyDictGet old "dismissed_labels") = false)) ∧
    (dictGet? (convert_comment old) "entities" = none ↔
      (isNotNone (pyDictGet old "assigned_entities") = false ∧
       isNotNone (pyDictGet old "dismissed_entities") = false)) := by
  by_cases h1 : isNotNone (pyDictGet old "assigned_labels") = true <;>
  by_cases h2 : isNotNone (pyDictGet old "dismissed_labels") = true <;>
  by_cases h3 : isNotNone (pyDictGet old "assigned_entities") = true <;>
  by_cases h4 : isNotNone (pyDictGet old "dismissed_entities") = true <;>
  simp_all [convert_comment, dictGet?]

/-- C9: each special key is moved, never copied — in the reshaped output
a special key never occurs both inside the comment subtree and at its
corresponding home under labelling or entities. -/
theorem claim_C9 (old : CommentDict) :
    ((dictGet? (convert_comment old) "comment").bind
        (fun c => jget c "assigned_labels") = none ∨
      (dictGet? (convert_comment old) "labelling").bind
        (fun l => jget l "assigned") = none) ∧
    ((dictGet? (convert_comment old) "comment").bind
        (fun c => jget c "dismissed_labels") = none ∨
      (dictGet? (convert_comment old) "labelling").bind
        (fun l => jget l "dismissed") = none) ∧
    ((dictGet? (convert_comment old) "comment").bind
        (fun c => jget c "assigned_entities") = none ∨
      (dictGet? (convert_comment old) "entities").bind
        (fun l => jget l "assigned") = none) ∧
    ((dictGet? (convert_comment old) "comment").bind
        (fun c => jget c "dismissed_entities") = none ∨
      (dictGet? (convert_comment old) "entities").bind
        (fun l => jget l "dismissed") = none) := by
  by_cases h1 : isNotNone (pyDictGet old "assigned_labels") = true <;>
  by_cases h2 : isNotNone (pyDictGet old "dismissed_labels") = true <;>
  by_cases h3 : isNotNone (pyDictGet old "assigned_entities") = true <;>
  by_cases h4 : isNotNone (pyDictGet old "dismissed_entities") = true <;>
  simp_all [convert_comment, dictGet?, jget, dictGet?_delKey_ne, dictGet?_delKey_self]

/-- C7 corrected, counterexample: on the document whose EntityDefNew
schema is the number 5, the membership test for properties raises a
TypeError instead of silently skipping the absent part. -/
theorem claim_C7_counterexample :
    fix_none_typed_ids (Json.obj [("components", Json.obj [("schemas",
      Json.obj [("EntityDefNew", Json.num 5)])])]) =
    Except.error PyError.typeError := rfl

/-- C7 amended: fix_none_typed_ids modifies at most the id property of
the two named schemas — every other key at every level is unchanged, a
null-typed id is replaced by exactly the nullable-string shape and any
other id is kept — and absent parts are skipped without error provided
the traversed containers are mappings where present. -/
theorem claim_C7 :
    (∀ d d', fix_none_typed_ids d = Except.ok d' →
      (∀ k, k ≠ "components" → jget d' k = jget d k) ∧
      (∀ k, k ≠ "schemas" → (jget d' "components").bind (fun c => jget c k) =
        (jget d "components").bind (fun c => jget c k)) ∧
      (∀ s, s ≠ "EntityDefNew" → s ≠ "FieldChoiceNewApi" →
        (schemasPath d').bind (fun sc => jget sc s) =
        (schemasPath d).bind (fun sc => jget sc s)) ∧
      (∀ s k, (s = "EntityDefNew" ∨ s = "FieldChoiceNewApi") → k ≠ "properties" →
        ((schemasPath d').bind (fun sc => jget sc s)).bind (fun sch => jget sch k) =
        ((schemasPath d).bind (fun sc => jget sc s)).bind (fun sch => jget sch k)) ∧
      (∀ s p, (s = "EntityDefNew" ∨ s = "FieldChoiceNewApi") → p ≠ "id" →
        schemaProp d' s p = schemaProp d s p) ∧
      (∀ s, (s = "EntityDefNew" ∨ s = "FieldChoiceNewApi") →
        schemaProp d' s "id" = (schemaProp d s "id").map
          (fun idp => if isNullTypedProp idp then fixedProp else idp))) ∧
    (∀ d, namedSkipWF d = true → ∃ d', fix_none_typed_ids d = Except.ok d') := by
  constructor
  · intro d d' h
    rcases fix_none_char h with ⟨heq, hsp⟩ | ⟨dKvs, compKvs, schemas0, s1, s2, hd, hg0, hg1, hfa, hfb, heq⟩
    · subst heq
      refine ⟨fun k _ => rfl, fun k _ => rfl, fun s _ _ => rfl, fun s k _ _ => rfl,
        fun s p _ _ => rfl, fun s _ => ?_⟩
      rw [schemaProp, hsp]
      simp
    · subst heq
      subst hd
      have hspD : schemasPath (Json.obj dKvs) = some schemas0 := by
        rw [schemasPath, jget, hg0]
        simp only [Option.some_bind]
        rw [jget, hg1]
      have hspD' : schemasPath (Json.obj (dictSet dKvs "components"
          (Json.obj (dictSet compKvs "schemas" s2)))) = some s2 := by
        rw [schemasPath, jget, dictGet?_dictSet_self]
        simp only [Option.some_bind]
        rw [jget, dictGet?_dictSet_self]
      refine ⟨?_, ?_, ?_, ?_, ?_, ?_⟩
      · intro k hk
        rw [jget, dictGet?_dictSet_ne _ _ _ _ hk, jget]
      · intro k hk
        rw [jget, dictGet?_dictSet_self, jget, hg0]
        simp only [Option.some_bind]
        rw [jget, dictGet?_dictSet_ne _ _ _ _ hk, jget]
      · intro s hsE hsF
        rw [hspD', hspD]
        simp only [Option.some_bind]
        rw [fixIdInSchemas_jget_ne hfb hsF, fixIdInSchemas_jget_ne hfa hsE]
      · intro s k hs hk
        rw [hspD', hspD]
        simp only [Option.some_bind]
        rcases hs with rfl | rfl
        · rw [fixIdInSchemas_jget_ne hfb (by decide)]
          exact fixIdInSchemas_jget_name_k hfa hk
        · rw [fixIdInSchemas_jget_name_k hfb hk,
            fixIdInSchemas_jget_ne hfa (by decide)]
      · intro s p hs hp
        rw [schemaProp, schemaProp, hspD', hspD]
        simp only [Option.some_bind]
        rw [← Option.bind_assoc, ← Option.bind_assoc]
        rcases hs with rfl | rfl
        · rw [fixIdInSchemas_jget_ne hfb (by decide)]
          exact fixIdInSchemas_prop_ne hfa hp
        · rw [fixIdInSchemas_prop_ne hfb hp,
            fixIdInSchemas_jget_ne hfa (by decide)]
      · intro s hs
        rw [schemaProp, schemaProp, hspD', hspD]
        simp only [Option.some_bind]
        rw [← Option.bind_assoc, ← Option.bind_assoc]
        rcases hs with rfl | rfl
        · rw [fixIdInSchemas_jget_ne hfb (by decide)]
          exact fixIdInSchemas_id_map hfa
        · rw [fixIdInSchemas_id_map hfb,
            fixIdInSchemas_jget_ne hfa (by decide)]
  · intro d hwf
    cases d with
    | obj dKvs =>
      rw [namedSkipWF] at hwf
      cases hc : dictGet? dKvs "components" with
      | none =>
        exact ⟨Json.obj dKvs, by simp [fix_none_typed_ids, pyIn, dictHas, hc]⟩
      | some comp =>
        rw [hc] at hwf
        cases comp with
        | obj compKvs =>
          dsimp only at hwf
          cases hs : dictGet? compKvs "schemas" with
          | none =>
            exact ⟨Json.obj dKvs, by
              simp [fix_none_typed_ids, pyIn, pyGetItem, dictHas, hc, hs]⟩
          | some schemasJ =>
            rw [hs] at hwf
            cases schemasJ with
            | obj schKvs =>
              dsimp only at hwf
              rw [Bool.and_eq_true] at hwf
              obtain ⟨s1, hfa⟩ := exists_ok_of_isOk (fixIdInSchemas_wf_isOk hwf.1)
              obtain ⟨s1Kvs, hs1, hwfF⟩ :=
                namedSchemaWF_after_fixId hfa (by decide) hwf.2
              obtain ⟨s2, hfb0⟩ := exists_ok_of_isOk (fixIdInSchemas_wf_isOk hwfF)
              have hfb : fixIdInSchemas s1 "FieldChoiceNewApi" = Except.ok s2 := by
                rw [hs1]
                exact hfb0
              refine ⟨Json.obj (dictSet dKvs "components"
                (Json.obj (dictSet compKvs "schemas" s2))), ?_⟩
              simp [fix_none_typed_ids, pyIn, pyGetItem, pySetItem, dictHas,
                hc, hs, hfa, hfb]
            | null => simp at hwf
            | bool b => simp at hwf
            | num n => simp at hwf
            | str s => simp at hwf
            | arr xs => simp at hwf
        | null => simp at hwf
        | bool b => simp at hwf
        | num n => simp at hwf
        | str s => simp at hwf
        | arr xs => simp at hwf
    | null => simp [namedSkipWF] at hwf
    | bool b => simp [namedSkipWF] at hwf
    | num n => simp [namedSkipWF] at hwf
    | str s => simp [namedSkipWF] at hwf
    | arr xs => simp [namedSkipWF] at hwf

/-- Witness for C7 at a document whose EntityDefNew.id is typed null:
the id is rewritten per the detector, and the well-formed document is
processed without error. -/
theorem claim_C7_witness :
    schemaProp (Json.obj [("components", Json.obj [("schemas", Json.obj
        [("EntityDefNew", Json.obj [("properties", Json.obj
          [("id", fixedProp)])])])])]) "EntityDefNew" "id" =
      (schemaProp (Json.obj [("components", Json.obj [("schemas", Json.obj
        [("EntityDefNew", Json.obj [("properties", Json.obj
          [("id", Json.obj [("type", Json.str "null")])])])])])])
        "EntityDefNew" "id").map
        (fun idp => if isNullTypedProp idp then fixedProp else idp) ∧
    ∃ d', fix_none_typed_ids (Json.obj [("components", Json.obj [("schemas", Json.obj
        [("EntityDefNew", Json.obj [("properties", Json.obj
          [("id", Json.obj [("type", Json.str "null")])])])])])]) = Except.ok d' :=
  ⟨((claim_C7.1
      (Json.obj [("components", Json.obj [("schemas", Json.obj
        [("EntityDefNew", Json.obj [("properties", Json.obj
          [("id", Json.obj [("type", Json.str "null")])])])])])])
      (Json.obj [("components", Json.obj [("schemas", Json.obj
        [("EntityDefNew", Json.obj [("properties", Json.obj
          [("id", fixedProp)])])])])])
      rfl).2.2.2.2.2) "EntityDefNew" (Or.inl rfl),
   claim_C7.2
      (Json.obj [("components", Json.obj [("schemas", Json.obj
        [("EntityDefNew", Json.obj [("properties", Json.obj
          [("id", Json.obj [("type", Json.str "null")])])])])])])
      rfl⟩
